import Mathlib

/-!
Shallow embedding of `src/intervaltree/interval.py` (the `Interval` value
type of the typedintervaltree package) and proofs about it.

The point domain (`begin` / `end`) is modelled by `Int`: an ordered,
subtraction-capable domain as required by the source's `Comparable` bound.
Payloads (`data`) are modelled by `PyVal`, a small closed universe of the
Python values the spec and its fixtures use (`None`, `int`, `str`), with
Python's `==` and `<` semantics: `==` is total across types, `<` raises
`TypeError` on mixed types and on `None` (modelled by returning `none`).

Python exceptions are modelled with `Except PyErr`.  Functions that the
source makes total return plain values.
-/

namespace IntervalTree

/-- Python exceptions that the source can raise or catch. -/
inductive PyErr where
  | valueError
  | attributeError
  | typeError
deriving DecidableEq, Repr

/-- Payload universe: Python `None`, `int` and `str` values. -/
inductive PyVal where
  | none
  | int (n : Int)
  | str (s : String)
deriving DecidableEq, Repr

/-- Python `==` on payloads: total, `False` across types, `None == None`. -/
def pyEq : PyVal → PyVal → Bool
  | .none, .none => true
  | .int m, .int n => m = n
  | .str x, .str y => x = y
  | _, _ => false

/-- Python `<` on payloads: defined within `int` and within `str`,
raises `TypeError` (modelled as `none`) on any pair involving `None`
or mixing types. -/
def pyLt : PyVal → PyVal → Option Bool
  | .int m, .int n => some (decide (m < n))
  | .str x, .str y => some (decide (x < y))
  | _, _ => Option.none

/-- `type(v).__name__` for the payload universe. -/
def typeName : PyVal → String
  | .none => "NoneType"
  | .int _ => "int"
  | .str _ => "str"

/-- The `Interval` named tuple: fields `begin`, `end`, `data`
(`interval.py`, `IntervalBase` / `Interval`). -/
structure Interval where
  begin : Int
  «end» : Int
  data : PyVal
deriving DecidableEq, Repr

/-- `Interval.__new__(cls, begin, end, data=None)`: the constructor with
the payload defaulting to `None`. -/
def Interval.mk' (b e : Int) (d : PyVal := .none) : Interval :=
  ⟨b, e, d⟩

/-- The single polymorphic argument accepted by `overlaps` /
`overlap_size`: a point, a `(begin, end)` range, or an interval-like
value (an object exposing `begin` and `end`). -/
inductive Query where
  | point (p : Int)
  | range (b e : Int)
  | interval (i : Interval)
deriving DecidableEq, Repr

/-- The single argument accepted by `distance_to` and by the directional
predicates `lt`/`le`/`gt`/`ge`: a point or an interval-like value. -/
inductive Operand where
  | point (p : Int)
  | interval (i : Interval)
deriving DecidableEq, Repr

namespace Interval

/-- `Interval.contains_point`: `self.begin <= p < self.end`. -/
def contains_point (s : Interval) (p : Int) : Bool :=
  s.begin ≤ p ∧ p < s.«end»

/-- `Interval.overlaps`.  Two-argument range form: `begin < self.end and
end > self.begin`.  One-argument form: first try `begin.begin` /
`begin.end` (succeeds exactly on interval-like values), on exception
fall back to `contains_point`. -/
def overlaps (s : Interval) : Query → Bool
  | .range b e => decide (b < s.«end») && decide (e > s.begin)
  | .interval i => decide (i.begin < s.«end») && decide (i.«end» > s.begin)
  | .point p => s.contains_point p

/-- `Interval.overlap_size`.  Returns `0` when there is no overlap;
otherwise `min(self.end, end) - max(self.begin, begin)` for the range
and interval forms.  For an overlapping plain point the source evaluates
`begin.begin` outside any `try`, so an `AttributeError` escapes. -/
def overlap_size (s : Interval) : Query → Except PyErr Int
  | .range b e =>
      if ¬ s.overlaps (.range b e) then .ok 0
      else .ok (min s.«end» e - max s.begin b)
  | .interval i =>
      if ¬ s.overlaps (.interval i) then .ok 0
      else .ok (min s.«end» i.«end» - max s.begin i.begin)
  | .point p =>
      if ¬ s.overlaps (.point p) then .ok 0
      else .error .attributeError

/-- `Interval.range_matches`: begins equal and ends equal. -/
def range_matches (s o : Interval) : Bool :=
  s.begin = o.begin ∧ s.«end» = o.«end»

/-- `Interval.contains_interval`:
`self.begin <= other.begin and self.end >= other.end`. -/
def contains_interval (s o : Interval) : Bool :=
  s.begin ≤ o.begin ∧ s.«end» ≥ o.«end»

/-- `Interval.is_null`: `self.begin >= self.end`. -/
def is_null (s : Interval) : Bool :=
  s.begin ≥ s.«end»

/-- `Interval.length`: `0` if null, else `self.end - self.begin`. -/
def length (s : Interval) : Int :=
  if s.is_null then 0 else s.«end» - s.begin

/-- `Interval.distance_to`.  `0` when `self.overlaps(other)`; the `try`
block reads `other.begin` / `other.end` (interval-like case), and the
bare `except` redoes the computation treating `other` as a point. -/
def distance_to (s : Interval) : Operand → Int
  | .interval i =>
      if s.overlaps (.interval i) then 0
      else if s.begin < i.begin then i.begin - s.«end»
      else s.begin - i.«end»
  | .point p =>
      if s.overlaps (.point p) then 0
      else if s.«end» ≤ p then p - s.«end»
      else s.begin - p

/-- `Interval.__hash__`: `hash((self.begin, self.end))` — the hash value
is a function of the `(begin, end)` pair alone, modelled by the pair
itself. -/
def hashVal (s : Interval) : Int × Int :=
  (s.begin, s.«end»)

/-- `Interval.__eq__` between two intervals: begins, ends and data
fields all equal (data compared with Python `==`). -/
def eq (s o : Interval) : Bool :=
  decide (s.begin = o.begin) && decide (s.«end» = o.«end») && pyEq s.data o.data

/-- `Interval.__cmp__` between two intervals: compare the `(begin, end)`
tuple slices; on equal slices compare data with `==` then `<`, and on a
`TypeError` from `<` compare type names. -/
def cmp (s o : Interval) : Int :=
  if ¬ (s.begin = o.begin ∧ s.«end» = o.«end») then
    if s.begin < o.begin ∨ (s.begin = o.begin ∧ s.«end» < o.«end») then -1 else 1
  else if pyEq s.data o.data then 0
  else match pyLt s.data o.data with
    | some l => if l then -1 else 1
    | Option.none =>
        let sn := typeName s.data
        let tn := typeName o.data
        if sn = tn then 0
        else if sn < tn then -1 else 1

/-- `Interval.__lt__`: `self.__cmp__(other) < 0`. -/
def lt' (s o : Interval) : Bool :=
  decide (s.cmp o < 0)

/-- `Interval.__gt__`: `self.__cmp__(other) > 0`. -/
def gt' (s o : Interval) : Bool :=
  decide (s.cmp o > 0)

/-- Whether `other` is an interval-like value that is null: the
`hasattr(other, 'is_null') and other.is_null()` test of
`_raise_if_null` (plain points have no `is_null`). -/
def operandNull : Operand → Bool
  | .interval i => i.is_null
  | .point _ => false

/-- `Interval._raise_if_null` as a test: `True` iff the guarded call
raises `ValueError`. -/
def raisesIfNull (s : Interval) (o : Operand) : Bool :=
  s.is_null || operandNull o

/-- `Interval.lt`: after the null guard,
`self.end <= getattr(other, 'begin', other)`. -/
def lt (s : Interval) (o : Operand) : Except PyErr Bool :=
  if s.raisesIfNull o then .error .valueError
  else .ok (match o with
    | .interval i => decide (s.«end» ≤ i.begin)
    | .point p => decide (s.«end» ≤ p))

/-- `Interval.le`: after the null guard,
`self.end <= getattr(other, 'end', other)`. -/
def le (s : Interval) (o : Operand) : Except PyErr Bool :=
  if s.raisesIfNull o then .error .valueError
  else .ok (match o with
    | .interval i => decide (s.«end» ≤ i.«end»)
    | .point p => decide (s.«end» ≤ p))

/-- `Interval.gt`: after the null guard, `self.begin >= other.end` when
`other` has an `end` attribute, else `self.begin > other`. -/
def gt (s : Interval) (o : Operand) : Except PyErr Bool :=
  if s.raisesIfNull o then .error .valueError
  else .ok (match o with
    | .interval i => decide (s.begin ≥ i.«end»)
    | .point p => decide (s.begin > p))

/-- `Interval.ge`: after the null guard,
`self.begin >= getattr(other, 'begin', other)`. -/
def ge (s : Interval) (o : Operand) : Except PyErr Bool :=
  if s.raisesIfNull o then .error .valueError
  else .ok (match o with
    | .interval i => decide (s.begin ≥ i.begin)
    | .point p => decide (s.begin ≥ p))

end Interval

/-- Inject an `Operand` into the query type of `overlaps`. -/
def Operand.toQuery : Operand → Query
  | .point p => .point p
  | .interval i => .interval i

/-- The tuple returned by `Interval._get_fields`: a 2-tuple when `data`
is `None`, a 3-tuple otherwise. -/
inductive Fields where
  | two (b e : Int)
  | three (b e : Int) (d : PyVal)
deriving DecidableEq, Repr

/-- Whether a `Fields` value is the 2-field form. -/
def Fields.isTwo : Fields → Bool
  | .two _ _ => true
  | .three _ _ _ => false

namespace Interval

/-- `Interval._get_fields`: `(begin, end, data)` if `data is not None`,
else `(begin, end)`. -/
def get_fields (i : Interval) : Fields :=
  if i.data ≠ PyVal.none then .three i.begin i.«end» i.data
  else .two i.begin i.«end»

/-- Evaluating the reconstruction call `Interval(*fields)`: the 2-field
form leaves `data` at its default `None`. -/
def construct : Fields → Interval
  | .two b e => ⟨b, e, PyVal.none⟩
  | .three b e d => ⟨b, e, d⟩

end Interval

/-- Python `repr` on the payload universe (`repr(None)`, `repr(int)`,
`repr(str)` with single quotes). -/
def pyRepr : PyVal → String
  | .none => "None"
  | .int n => toString n
  | .str s => "'" ++ s ++ "'"

namespace Interval

/-- `Interval.__repr__`: `begin`/`end` are Numbers so rendered with
`str`; the payload, when present, with `repr`. -/
def repr_str (i : Interval) : String :=
  if i.data = PyVal.none then
    "Interval(" ++ toString i.begin ++ ", " ++ toString i.«end» ++ ")"
  else
    "Interval(" ++ toString i.begin ++ ", " ++ toString i.«end» ++ ", "
      ++ pyRepr i.data ++ ")"

end Interval

/-- Rendering of a `_get_fields` tuple as the constructor-call text. -/
def renderFields : Fields → String
  | .two b e => "Interval(" ++ toString b ++ ", " ++ toString e ++ ")"
  | .three b e d =>
      "Interval(" ++ toString b ++ ", " ++ toString e ++ ", " ++ pyRepr d ++ ")"

/-- Three-way payload comparison where the payloads are mutually
order-comparable (`int` with `int`, `str` with `str`); `none` when a
comparison attempt would fail. -/
def pyCompare : PyVal → PyVal → Option Int
  | .int m, .int n => some (if m = n then 0 else if m < n then -1 else 1)
  | .str x, .str y => some (if x = y then 0 else if x < y then -1 else 1)
  | _, _ => Option.none

/-- The comparator as the spec describes it: `(begin, end)` tuples
lexicographically, then payloads when mutually comparable, then the
payloads' type names alphabetically. -/
def cmp_spec (s o : Interval) : Int :=
  if s.begin < o.begin then -1
  else if o.begin < s.begin then 1
  else if s.«end» < o.«end» then -1
  else if o.«end» < s.«end» then 1
  else match pyCompare s.data o.data with
    | some c => c
    | Option.none =>
        if typeName s.data = typeName o.data then 0
        else if typeName s.data < typeName o.data then -1 else 1

/-! ## Theorems -/

/-- C1: for every interval `S` and range `(b, e)`, `S.overlaps(b, e)`
is true iff `b < S.end` and `e > S.begin`; for every single point `p`,
`S.overlaps(p)` and `S.contains_point(p)` are true iff
`S.begin <= p < S.end`. -/
theorem overlaps_point_range_spec (S : Interval) (b e p : Int) :
    (S.overlaps (.range b e) = true ↔ b < S.«end» ∧ e > S.begin)
    ∧ S.overlaps (.point p) = S.contains_point p
    ∧ (S.contains_point p = true ↔ S.begin ≤ p ∧ p < S.«end») := by
  refine ⟨?_, rfl, ?_⟩ <;>
    simp [Interval.overlaps, Interval.contains_point]

/-- C3: each of `lt`, `le`, `gt`, `ge` fails with the invalid-operation
error (`ValueError`) iff `self` is null or the operand is an
interval-like value that is null, and returns normally otherwise. -/
theorem directional_null_guard (S : Interval) (X : Operand) :
    (S.lt X = .error .valueError ↔ (S.is_null || Interval.operandNull X) = true)
    ∧ ((∃ v, S.lt X = .ok v) ↔ (S.is_null || Interval.operandNull X) = false)
    ∧ (S.le X = .error .valueError ↔ (S.is_null || Interval.operandNull X) = true)
    ∧ ((∃ v, S.le X = .ok v) ↔ (S.is_null || Interval.operandNull X) = false)
    ∧ (S.gt X = .error .valueError ↔ (S.is_null || Interval.operandNull X) = true)
    ∧ ((∃ v, S.gt X = .ok v) ↔ (S.is_null || Interval.operandNull X) = false)
    ∧ (S.ge X = .error .valueError ↔ (S.is_null || Interval.operandNull X) = true)
    ∧ ((∃ v, S.ge X = .ok v) ↔ (S.is_null || Interval.operandNull X) = false) := by
  by_cases h : (S.is_null || Interval.operandNull X) = true <;>
    simp [Interval.lt, Interval.le, Interval.gt, Interval.ge,
      Interval.raisesIfNull, h] at *

/-- C5: `distance_to` returns the domain zero when the operands overlap;
otherwise for an interval operand it returns `other.begin - self.end`
when `self.begin < other.begin` and `self.begin - other.end` otherwise,
and for a point operand it returns `point - self.end` when
`self.end <= point` and `self.begin - point` otherwise. -/
theorem distance_to_spec (S : Interval) (X : Operand) :
    S.distance_to X =
      if S.overlaps X.toQuery then 0
      else match X with
        | .interval i =>
            if S.begin < i.begin then i.begin - S.«end» else S.begin - i.«end»
        | .point p =>
            if S.«end» ≤ p then p - S.«end» else S.begin - p := by
  cases X <;> rfl

/-- C8 counterexample: on a contained plain point the source evaluates
`begin.begin` outside any `try`, so `overlap_size` raises
`AttributeError` instead of returning a value:
`Interval(0, 5).overlap_size(2)` fails. -/
theorem overlap_size_point_cex :
    (Interval.mk' 0 5).overlap_size (.point 2) = .error .attributeError := rfl

/-- C8 amended: for a range or interval query, `overlap_size` returns
the domain zero when there is no overlap and
`min(self.end, query.end) - max(self.begin, query.begin)` otherwise;
for a point query it returns the domain zero when the point is not
contained and raises `AttributeError` when it is. -/
theorem overlap_size_spec (S : Interval) (b e p : Int) (i : Interval) :
    S.overlap_size (.range b e) =
      .ok (if S.overlaps (.range b e) then min S.«end» e - max S.begin b else 0)
    ∧ S.overlap_size (.interval i) =
      .ok (if S.overlaps (.interval i)
            then min S.«end» i.«end» - max S.begin i.begin else 0)
    ∧ S.overlap_size (.point p) =
      (if S.overlaps (.point p) then .error .attributeError else .ok 0) := by
  refine ⟨?_, ?_, ?_⟩ <;> simp only [Interval.overlap_size] <;>
    split_ifs <;> simp_all

/-- C9: reconstructing an Interval from its `_get_fields` tuple via the
constructor yields a fully-equal Interval; the tuple (and the rendered
`__repr__` text) uses the 2-field form exactly when the payload is
`None`, and the 3-field form otherwise. -/
theorem repr_roundtrip (i : Interval) :
    Interval.construct i.get_fields = i
    ∧ (i.get_fields.isTwo = true ↔ i.data = PyVal.none)
    ∧ i.repr_str = renderFields i.get_fields := by
  obtain ⟨b, e, d⟩ := i
  cases d <;>
    simp [Interval.get_fields, Interval.construct, Interval.repr_str,
      renderFields, Fields.isTwo]

/-- C10: for a non-null interval and a plain point operand, `lt` and
`le` coincide, both returning whether `self.end <= point`. -/
theorem lt_le_point_agree (S : Interval) (hS : S.is_null = false) (p : Int) :
    S.lt (.point p) = S.le (.point p)
    ∧ S.lt (.point p) = .ok (decide (S.«end» ≤ p)) := by
  simp [Interval.lt, Interval.le, Interval.raisesIfNull,
    Interval.operandNull, hS]

/-- C10 witness: the theorem applied at `Interval(0, 1)` and point `3`. -/
theorem lt_le_point_agree_witness :
    (Interval.mk' 0 1).is_null = false
    ∧ (Interval.mk' 0 1).lt (.point 3) = (Interval.mk' 0 1).le (.point 3)
    ∧ (Interval.mk' 0 1).lt (.point 3) = .ok (decide ((1 : Int) ≤ 3)) :=
  ⟨rfl, (lt_le_point_agree (Interval.mk' 0 1) rfl 3).1,
    (lt_le_point_agree (Interval.mk' 0 1) rfl 3).2⟩

/-- C4: for a non-null interval `S`, `lt` returns `S.end <= X.begin` on
non-null interval operands and `S.end <= X` on points, and `gt` returns
`S.begin >= X.end` on non-null interval operands and `S.begin > X` on
points; in particular `Interval(1,5).lt(Interval(5,10))` is true and
`Interval(1,5).lt(Interval(4,10))` is false. -/
theorem lt_gt_directional_spec (S : Interval) (hS : S.is_null = false) :
    (∀ i : Interval, i.is_null = false →
      S.lt (.interval i) = .ok (decide (S.«end» ≤ i.begin))
      ∧ S.gt (.interval i) = .ok (decide (S.begin ≥ i.«end»)))
    ∧ (∀ p : Int,
      S.lt (.point p) = .ok (decide (S.«end» ≤ p))
      ∧ S.gt (.point p) = .ok (decide (S.begin > p)))
    ∧ (Interval.mk' 1 5).lt (.interval (Interval.mk' 5 10)) = .ok true
    ∧ (Interval.mk' 1 5).lt (.interval (Interval.mk' 4 10)) = .ok false := by
  refine ⟨fun i hi => ?_, fun p => ?_, rfl, rfl⟩ <;>
    simp [Interval.lt, Interval.gt, Interval.raisesIfNull,
      Interval.operandNull, hS, *]

/-- C4 witness: the theorem applied at `Interval(0, 1)` and
`Interval(2, 3)`. -/
theorem lt_gt_directional_spec_witness :
    (Interval.mk' 0 1).is_null = false
    ∧ (Interval.mk' 2 3).is_null = false
    ∧ (Interval.mk' 0 1).lt (.interval (Interval.mk' 2 3))
        = .ok (decide ((1 : Int) ≤ 2))
    ∧ (Interval.mk' 0 1).gt (.interval (Interval.mk' 2 3))
        = .ok (decide ((0 : Int) ≥ 3)) :=
  ⟨rfl, rfl,
    ((lt_gt_directional_spec (Interval.mk' 0 1) rfl).1 (Interval.mk' 2 3) rfl).1,
    ((lt_gt_directional_spec (Interval.mk' 0 1) rfl).1 (Interval.mk' 2 3) rfl).2⟩

/-- C7: full equality holds iff begins, ends and payloads are all equal,
the hash is a function of `(begin, end)` alone so a range-match implies
equal hashes; `Interval(0,5,"x")` and `Interval(0,5,"y")` have equal
hashes, `range_matches` true, and full equality false. -/
theorem eq_hash_spec (A B : Interval) :
    (A.eq B = true ↔
      A.begin = B.begin ∧ A.«end» = B.«end» ∧ pyEq A.data B.data = true)
    ∧ (A.range_matches B = true → A.hashVal = B.hashVal)
    ∧ (Interval.mk' 0 5 (.str "x")).hashVal
        = (Interval.mk' 0 5 (.str "y")).hashVal
    ∧ (Interval.mk' 0 5 (.str "x")).range_matches (Interval.mk' 0 5 (.str "y"))
        = true
    ∧ (Interval.mk' 0 5 (.str "x")).eq (Interval.mk' 0 5 (.str "y")) = false := by
  refine ⟨by simp [Interval.eq, and_assoc], fun h => ?_, rfl, by decide, by decide⟩
  simp [Interval.range_matches] at h
  simp [Interval.hashVal, h.1, h.2]

/-- C7 witness: `range_matches` discharged at `Interval(0,5,"x")` and
`Interval(0,5,"y")`, giving equal hashes. -/
theorem eq_hash_spec_witness :
    (Interval.mk' 0 5 (.str "x")).range_matches (Interval.mk' 0 5 (.str "y"))
        = true
    ∧ (Interval.mk' 0 5 (.str "x")).hashVal
        = (Interval.mk' 0 5 (.str "y")).hashVal :=
  ⟨by decide,
    (eq_hash_spec (Interval.mk' 0 5 (.str "x"))
      (Interval.mk' 0 5 (.str "y"))).2.1 (by decide)⟩

/-- C6 counterexample: `Interval(1,3)` and `Interval(3,5)` do not
overlap yet their distance is `0`, not greater than the domain zero;
and with the null interval `Interval(0,0)`, `distance_to` is not even
symmetric (`-5` one way, `0` the other). -/
theorem distance_nonoverlap_cex :
    ((Interval.mk' 1 3).overlaps (.interval (Interval.mk' 3 5)) = false
      ∧ (Interval.mk' 1 3).distance_to (.interval (Interval.mk' 3 5)) = 0)
    ∧ ((Interval.mk' 0 0).overlaps (.interval (Interval.mk' 0 5)) = false
      ∧ (Interval.mk' 0 5).overlaps (.interval (Interval.mk' 0 0)) = false
      ∧ (Interval.mk' 0 0).distance_to (.interval (Interval.mk' 0 5)) = -5
      ∧ (Interval.mk' 0 5).distance_to (.interval (Interval.mk' 0 0)) = 0) := by
  decide

/-- C6 amended: for non-null intervals `A`, `B` with
`not A.overlaps(B)`, `A.overlap_size(B)` is the domain zero,
`A.distance_to(B) == B.distance_to(A)`, and that distance is greater
than or equal to the domain zero. -/
theorem nonoverlap_distance_sym (A B : Interval)
    (hA : A.is_null = false) (hB : B.is_null = false)
    (h : A.overlaps (.interval B) = false) :
    A.overlap_size (.interval B) = .ok 0
    ∧ A.distance_to (.interval B) = B.distance_to (.interval A)
    ∧ 0 ≤ A.distance_to (.interval B) := by
  obtain ⟨ab, ae, ad⟩ := A
  obtain ⟨bb, be, bd⟩ := B
  simp [Interval.is_null] at hA hB
  simp [Interval.overlaps] at h
  refine ⟨?_, ?_, ?_⟩
  · simp only [Interval.overlap_size, Interval.overlaps]
    split_ifs with hc
    · exfalso
      simp only [Bool.and_eq_true, decide_eq_true_eq] at hc
      omega
    · rfl
  · simp only [Interval.distance_to, Interval.overlaps]
    split_ifs <;> simp_all <;> omega
  · simp only [Interval.distance_to, Interval.overlaps]
    split_ifs <;> simp_all <;> omega

/-- C6 witness: the amended theorem applied at `Interval(0,2)` and
`Interval(5,7)`. -/
theorem nonoverlap_distance_sym_witness :
    (Interval.mk' 0 2).is_null = false
    ∧ (Interval.mk' 5 7).is_null = false
    ∧ (Interval.mk' 0 2).overlaps (.interval (Interval.mk' 5 7)) = false
    ∧ ((Interval.mk' 0 2).overlap_size (.interval (Interval.mk' 5 7)) = .ok 0
      ∧ (Interval.mk' 0 2).distance_to (.interval (Interval.mk' 5 7))
          = (Interval.mk' 5 7).distance_to (.interval (Interval.mk' 0 2))
      ∧ 0 ≤ (Interval.mk' 0 2).distance_to (.interval (Interval.mk' 5 7))) :=
  ⟨rfl, rfl, rfl,
    nonoverlap_distance_sym (Interval.mk' 0 2) (Interval.mk' 5 7) rfl rfl rfl⟩

/-- The source comparator agrees with the spec's three-tier description. -/
theorem cmp_eq_cmp_spec (A B : Interval) : A.cmp B = cmp_spec A B := by
  obtain ⟨ab, ae, ad⟩ := A
  obtain ⟨bb, be, bd⟩ := B
  by_cases ht : ab = bb ∧ ae = be
  · obtain ⟨rfl, rfl⟩ := ht
    cases ad <;> cases bd <;>
      simp [Interval.cmp, cmp_spec, pyEq, pyLt, pyCompare, typeName] <;>
      split_ifs <;> simp_all
  · simp only [Interval.cmp, cmp_spec]
    split_ifs <;> first | rfl | omega | (exfalso; omega)

/-- The spec comparator only produces `-1`, `0` or `1`. -/
theorem cmp_spec_total (A B : Interval) :
    cmp_spec A B = -1 ∨ cmp_spec A B = 0 ∨ cmp_spec A B = 1 := by
  cases hA : A.data <;> cases hB : B.data <;>
    simp only [cmp_spec, pyCompare, typeName, hA, hB] <;>
    split_ifs <;> simp

/-- C2: the three-way comparator compares `(begin, end)` tuples
lexicographically, then payloads when mutually comparable, then the
payloads' type names alphabetically; it is total (always `-1`, `0` or
`1`, never failing), and `<` / `>` are derived by sign-checking it. -/
theorem cmp_total_order_spec (A B : Interval) :
    A.cmp B = cmp_spec A B
    ∧ (A.cmp B = -1 ∨ A.cmp B = 0 ∨ A.cmp B = 1)
    ∧ A.lt' B = decide (A.cmp B < 0)
    ∧ A.gt' B = decide (A.cmp B > 0) :=
  ⟨cmp_eq_cmp_spec A B, (cmp_eq_cmp_spec A B) ▸ cmp_spec_total A B, rfl, rfl⟩

end IntervalTree
